import Mathlib

/-!
Verification development for the Aureon landing-page interactive logic
(`script.js`).  The JavaScript controllers are shallowly embedded as pure
Lean functions over explicit state records; scroll positions, element
offsets and speed factors are modelled as exact rationals (the idealised
arithmetic the script performs), exceptions as `Except`, and the DOM
pieces each controller touches as small records.
-/

namespace Aureon

/-! ## Smooth scroll primitive (`smoothScrollTo`, `easeInOutCubic`) -/

/-- Easing function `easeInOutCubic(t, b, c, d)` from `script.js`:
`t /= d / 2; if (t < 1) return c / 2 * t * t * t + b;
t -= 2; return c / 2 * (t * t * t + 2) + b;` -/
def easeInOutCubic (t b c d : ℚ) : ℚ :=
  let t1 := t / (d / 2)
  if t1 < 1 then
    c / 2 * t1 * t1 * t1 + b
  else
    let t2 := t1 - 2
    c / 2 * (t2 * t2 * t2 + 2) + b

/-- The fixed animation duration (`const duration = 1000`). -/
def scrollDuration : ℚ := 1000

/-- The scroll positions written by the `animation` callback of
`smoothScrollTo`, one per animation frame.  The input list carries the
elapsed time (`currentTime - start`) of each delivered frame; the callback
writes `easeInOutCubic(timeElapsed, b, c, duration)` on every frame and
re-registers itself only while `timeElapsed < duration`, so the writes
cover the frames up to and including the first one whose elapsed time
reaches the duration. -/
def animationWrites (b c : ℚ) : List ℚ → List ℚ
  | [] => []
  | e :: rest =>
    easeInOutCubic e b c scrollDuration ::
      (if e < scrollDuration then animationWrites b c rest else [])

/-- The target element of a smooth scroll, reduced to the one property the
code reads (`target.offsetTop`). -/
structure ScrollTarget where
  offsetTop : ℚ
  deriving DecidableEq, Repr

/-- Function `smoothScrollTo(targetId, offset)`: `document.querySelector` is
modelled by the `Option ScrollTarget` argument (`none` = no element
matches the identifier, in which case the function returns before any
scroll write).  `startPos` is `window.pageYOffset` at call time and
`frames` the elapsed times of the delivered animation frames.  The result
is the list of positions passed to `window.scrollTo`. -/
def smoothScrollTo (target : Option ScrollTarget) (offset startPos : ℚ)
    (frames : List ℚ) : List ℚ :=
  match target with
  | none => []
  | some t =>
    let targetPosition := t.offsetTop - offset
    let distance := targetPosition - startPos
    animationWrites startPos distance frames

/-! ## Theme management (`ThemeManager`) -/

/-- The browser's `localStorage`, restricted to the single key
`aureon-theme` the script uses.  `available = false` models the states in
which the storage is unavailable and its operations raise. -/
structure BrowserStorage where
  available : Bool
  value : Option String
  deriving DecidableEq, Repr

/-- Operation `localStorage.getItem('aureon-theme')`; raises when the storage is
unavailable. -/
def storageGet (s : BrowserStorage) : Except Unit (Option String) :=
  if s.available then .ok s.value else .error ()

/-- Operation `localStorage.setItem('aureon-theme', v)`; raises when the storage is
unavailable. -/
def storageSet (s : BrowserStorage) (v : String) :
    Except Unit BrowserStorage :=
  if s.available then .ok { s with value := some v } else .error ()

/-- The document state the theme code touches: the `data-theme` attribute
on the document element and the class of the icon inside `#themeToggle`
(`none` when the toggle or its icon is absent, in which case the guards in
`applyTheme` skip the icon update). -/
structure ThemeDoc where
  docAttr : Option String
  icon : Option String
  deriving DecidableEq, Repr

/-- A `ThemeManager` instance together with the browser state it mutates. -/
structure ThemeMgr where
  theme : String
  doc : ThemeDoc
  storage : BrowserStorage
  deriving DecidableEq, Repr

/-- Method `ThemeManager.applyTheme(theme)`: set the document attribute, record
`this.theme`, persist via `localStorage.setItem` (which may raise), then
update the toggle icon glyph when present. -/
def applyTheme (m : ThemeMgr) (theme : String) : Except Unit ThemeMgr := do
  let m := { m with doc := { m.doc with docAttr := some theme }, theme }
  let storage ← storageSet m.storage theme
  let m := { m with storage }
  pure { m with doc := { m.doc with
    icon := m.doc.icon.map fun _ =>
      if theme = "dark" then "fas fa-sun" else "fas fa-moon" } }

/-- Fallback `x || 'dark'` applied to the result of `getItem`: both `null` and the
empty string are falsy in JavaScript. -/
def themeOrDefault : Option String → String
  | none => "dark"
  | some s => if s = "" then "dark" else s

/-- Constructor `new ThemeManager()` followed by its `init()`: read the stored
preference (may raise), fall through `|| 'dark'`, then `applyTheme`
(whose `setItem` may raise). -/
def themeManagerNew (storage : BrowserStorage) (doc : ThemeDoc) :
    Except Unit ThemeMgr := do
  let v ← storageGet storage
  let theme := themeOrDefault v
  applyTheme { theme, doc, storage } theme

/-- Method `ThemeManager.toggle()` (the body-transition cosmetic self-clears
after 300ms and leaves no state behind, so it is not part of the state). -/
def toggle (m : ThemeMgr) : Except Unit ThemeMgr :=
  let newTheme := if m.theme = "dark" then "light" else "dark"
  applyTheme m newTheme

/-! ## Reveal animations (`ScrollAnimations.setupIntersectionObserver`) -/

/-- State of the one-shot reveal observer: the set of element identifiers
still observed, and the log of elements on which `animateElement` has
fired (most recent first). -/
structure ObserverState where
  observed : List ℕ
  fired : List ℕ
  deriving DecidableEq, Repr

/-- One observer callback entry `(target, isIntersecting)`.  The
`IntersectionObserver` contract delivers entries only for targets
currently observed, hence the membership test; the code itself contributes
the `isIntersecting` guard, the call to `animateElement` (recorded in
`fired`) and `observer.unobserve(entry.target)`. -/
def observerStep (s : ObserverState) (ev : ℕ × Bool) : ObserverState :=
  if ev.2 && decide (ev.1 ∈ s.observed) then
    { observed := s.observed.erase ev.1, fired := ev.1 :: s.fired }
  else s

/-- A whole page lifetime of visibility crossings, starting from the
initial set of `[data-aos]` elements handed to `observer.observe`. -/
def observerRun (init : List ℕ) (events : List (ℕ × Bool)) : ObserverState :=
  events.foldl observerStep { observed := init, fired := [] }

/-! ## Active nav link (`NavigationManager.updateActiveNavLink`) -/

/-- A `section[id]` element: its `id`, `offsetTop` and `offsetHeight`. -/
structure PageSection where
  sid : String
  offsetTop : ℚ
  offsetHeight : ℚ
  deriving DecidableEq, Repr

/-- A `.nav-link` element: the fragment its `href` points at, and whether
it currently carries the `active` class. -/
structure NavLink where
  href : String
  active : Bool
  deriving DecidableEq, Repr

/-- The bounds test `scrollPos >= sectionTop && scrollPos < sectionTop +
sectionHeight`. -/
def sectionMatches (scrollPos : ℚ) (s : PageSection) : Bool :=
  decide (s.offsetTop ≤ scrollPos) && decide (scrollPos < s.offsetTop + s.offsetHeight)

/-- Clearing `link.classList.remove('active')` over all nav links. -/
def clearActive (links : List NavLink) : List NavLink :=
  links.map fun l => { l with active := false }

/-- Query `document.querySelector('.nav-link[href="#id"]')` followed by
`classList.add('active')`: only the first link whose `href` matches is
marked; when none matches the query returns `null` and the guard skips
the add. -/
def setActiveFirst (sid : String) : List NavLink → List NavLink
  | [] => []
  | l :: ls =>
    if l.href = sid then { l with active := true } :: ls
    else l :: setActiveFirst sid ls

/-- The body of the `sections.forEach` in `updateActiveNavLink`. -/
def navStep (scrollPos : ℚ) (links : List NavLink) (s : PageSection) :
    List NavLink :=
  if sectionMatches scrollPos s then
    setActiveFirst s.sid (clearActive links)
  else links

/-- Method `NavigationManager.updateActiveNavLink()`: `scrollPos = scrollY + 100`,
then the `forEach` over sections in document order. -/
def updateActiveNavLink (sections : List PageSection) (links : List NavLink)
    (scrollY : ℚ) : List NavLink :=
  sections.foldl (navStep (scrollY + 100)) links

/-- Number of links carrying the `active` class. -/
def countActive (links : List NavLink) : ℕ :=
  (links.filter fun l => l.active).length

/-! ## Parallax (`ScrollAnimations.handleParallax`) -/

/-- A `.parallax` element: its parsed `data-speed` attribute (`none` when
absent, letting `|| 0.5` supply the default) and the `translateY` offset
currently applied through its `transform` style. -/
structure ParallaxElem where
  dataSpeed : Option ℚ
  transformY : ℚ
  deriving DecidableEq, Repr

/-- Method `ScrollAnimations.handleParallax()`: for every tagged element,
`speed = data-speed || 0.5`, `yPos = -(scrollY * speed)`, applied as the
element's `translateY`. -/
def handleParallax (scrollY : ℚ) (els : List ParallaxElem) :
    List ParallaxElem :=
  els.map fun e =>
    let speed := e.dataSpeed.getD (1 / 2)
    let yPos := -(scrollY * speed)
    { e with transformY := yPos }

/-! ## Mobile menu (`NavigationManager.openMobileMenu` / `closeMobileMenu`) -/

/-- Inline animation styles of one `.nav-link` inside the mobile menu:
`animationDelay` in seconds (`none` = the cleared empty string) and the
`animation` shorthand string. -/
structure MenuItem where
  animationDelay : Option ℚ
  animation : String
  deriving DecidableEq, Repr

/-- Observable state the mobile-menu code touches: `active` markers on the
menu and the toggle control, `document.body.style.overflow`, and the
per-item animation styles. -/
structure MenuState where
  menuActive : Bool
  toggleActive : Bool
  bodyOverflow : String
  items : List MenuItem
  deriving DecidableEq, Repr

/-- Method `NavigationManager.openMobileMenu()`. -/
def openMobileMenu (s : MenuState) : MenuState :=
  { menuActive := true
    toggleActive := true
    bodyOverflow := "hidden"
    items := s.items.mapIdx fun i _ =>
      { animationDelay := some ((i : ℚ) * (1 / 10))
        animation := "fadeInUp 0.3s ease forwards" } }

/-- Method `NavigationManager.closeMobileMenu()`. -/
def closeMobileMenu (s : MenuState) : MenuState :=
  { menuActive := false
    toggleActive := false
    bodyOverflow := ""
    items := s.items.map fun _ =>
      { animationDelay := none, animation := "" } }

/-! ## Button interactions (`InteractiveComponents`) -/

/-- Observable state of a `.btn` element: its serialized content
(`innerHTML`), the `disabled` flag, and the inline `background`,
`position` and `overflow` style overrides. -/
structure Btn where
  innerHTML : String
  disabled : Bool
  background : String
  position : String
  overflow : String
  deriving DecidableEq, Repr

/-- Serialization of the ripple `span` created by `createRippleEffect`
(its exact `cssText` depends on the click coordinates; only the fact that
it is a non-empty child matters here). -/
def rippleHTML : String := "<span style=\"...ripple...\"></span>"

/-- Method `InteractiveComponents.createRippleEffect(e, button)`: set
`position: relative` and `overflow: hidden` on the button and append the
ripple span (which serializes into the button's `innerHTML`).  The
`setTimeout(() => ripple.remove(), 600)` callback is a no-op whenever the
span has been detached in the meantime (as happens when the loading
handler replaces the button's `innerHTML`). -/
def createRippleEffect (b : Btn) : Btn :=
  { b with
    position := "relative"
    overflow := "hidden"
    innerHTML := b.innerHTML ++ rippleHTML }

/-- The spinner placeholder written by `showLoadingState`. -/
def processingHTML : String :=
  "<i class=\"fas fa-spinner fa-spin\"></i> Processing..."

/-- The success label written by the first timeout of `showLoadingState`. -/
def successHTML : String := "<i class=\"fas fa-check\"></i> Success!"

/-- Synchronous part of `InteractiveComponents.showLoadingState(button)`:
capture `originalText = button.innerHTML`, swap in the spinner
placeholder, disable the control.  Returns the new state and the captured
text. -/
def showLoadingStart (b : Btn) : Btn × String :=
  let originalText := b.innerHTML
  ({ b with innerHTML := processingHTML, disabled := true }, originalText)

/-- The 2000ms timeout of `showLoadingState`: success label and accent
background. -/
def showLoadingSuccess (b : Btn) : Btn :=
  { b with innerHTML := successHTML, background := "var(--color-accent)" }

/-- The nested further-2000ms timeout of `showLoadingState`: restore the
captured text, re-enable, clear the background override. -/
def showLoadingRestore (b : Btn) (originalText : String) : Btn :=
  { b with innerHTML := originalText, disabled := false, background := "" }

/-- The full three-stage sequence a single click triggers on a button
wired for the loading state.  `setupButtonInteractions` registers the
ripple listener before the loading listener, so the click first runs
`createRippleEffect` and only then `showLoadingStart`; the two timeouts
fire at 2000ms and 4000ms (the 600ms ripple removal finds the span
already detached and changes nothing).  Returns the states right after
the click, after the first timeout, and after the second. -/
def ctaClickSequence (b : Btn) : Btn × Btn × Btn :=
  let b1 := createRippleEffect b
  let (b2, originalText) := showLoadingStart b1
  let b3 := showLoadingSuccess b2
  let b4 := showLoadingRestore b3 originalText
  (b2, b3, b4)

/-! ## Helper lemmas -/

theorem clearActive_clearActive (links : List NavLink) :
    clearActive (clearActive links) = clearActive links := by
  simp [clearActive]

theorem clearActive_setActiveFirst (sid : String) (links : List NavLink) :
    clearActive (setActiveFirst sid links) = clearActive links := by
  induction links with
  | nil => rfl
  | cons l ls ih =>
    by_cases h : l.href = sid <;> simp [setActiveFirst, clearActive, h] <;>
      simpa [clearActive] using ih

theorem clearActive_navStep (p : ℚ) (links : List NavLink) (s : PageSection) :
    clearActive (navStep p links s) = clearActive links := by
  unfold navStep
  by_cases h : sectionMatches p s <;>
    simp [h, clearActive_setActiveFirst, clearActive_clearActive]

/-- Characterization of the `forEach` in `updateActiveNavLink`: the result
is determined by the last section (in document order) whose bounds contain
the scroll position — all links cleared, then the first link matching that
section's id marked — and is the unchanged input when no section matches. -/
theorem foldl_navStep_eq (p : ℚ) (sections : List PageSection)
    (links : List NavLink) :
    sections.foldl (navStep p) links =
      match (sections.filter (sectionMatches p)).getLast? with
      | none => links
      | some m => setActiveFirst m.sid (clearActive links) := by
  induction sections generalizing links with
  | nil => rfl
  | cons s ss ih =>
    rw [List.foldl_cons, ih (navStep p links s)]
    by_cases h : sectionMatches p s
    · rw [List.filter_cons_of_pos h]
      cases hf : ss.filter (sectionMatches p) with
      | nil =>
        simp [hf, navStep, h]
      | cons m ms =>
        simp only [hf, List.getLast?_cons_cons]
        cases hlast : (m :: ms).getLast? with
        | none => simp at hlast
        | some mm =>
          simp only [clearActive_navStep, navStep, h, if_pos,
            clearActive_setActiveFirst, clearActive_clearActive]
    · rw [List.filter_cons_of_neg h]
      simp [navStep, h]

theorem countActive_clearActive (links : List NavLink) :
    countActive (clearActive links) = 0 := by
  simp [countActive, clearActive, List.filter_map]

theorem countActive_setActiveFirst_le (sid : String) (links : List NavLink) :
    countActive (setActiveFirst sid links) ≤ countActive links + 1 := by
  induction links with
  | nil => simp [setActiveFirst, countActive]
  | cons l ls ih =>
    by_cases h : l.href = sid
    · by_cases ha : l.active <;>
        simp [setActiveFirst, countActive, h, ha, List.filter_cons] <;> omega
    · by_cases ha : l.active <;>
        simp only [setActiveFirst, countActive, h, ha, if_false,
          List.filter_cons] <;>
        simp only [countActive] at ih <;> simp [ha] <;> omega

theorem map_const_replicate {α β : Type} (xs : List α) (c : β) :
    (xs.map fun _ => c) = List.replicate xs.length c := by
  induction xs with
  | nil => rfl
  | cons x xs ih => simp [ih, List.replicate_succ]

theorem mapIdx_const {α β : Type} (xs : List α) (g : ℕ → β) :
    (xs.mapIdx fun i _ => g i) = (List.range xs.length).map g := by
  rw [List.mapIdx_eq_enum_map,
    show Function.uncurry (fun i (_ : α) => g i) = g ∘ Prod.fst from rfl,
    ← List.map_map, List.enum_map_fst]

/-! ## Claim theorems -/

/-- C7: the parallax offset is a pure function of the current scroll
position and the element's speed factor: every tagged element's applied
`translateY` equals `-(scrollY * speed)` with speed defaulting to `0.5`
when the attribute is absent; the result is independent of any previously
applied offsets (same scrollY, same offsets regardless of history), and
scrollY=200 with speed=0.5 yields −100px. -/
theorem parallax_offset (y yPrev t : ℚ) (els : List ParallaxElem) :
    handleParallax y els =
      (els.map fun el =>
        { el with transformY := -(y * el.dataSpeed.getD (1 / 2)) })
    ∧ handleParallax y (handleParallax yPrev els) = handleParallax y els
    ∧ handleParallax y [⟨none, t⟩] = [⟨none, -(y * (1 / 2))⟩]
    ∧ handleParallax 200 [⟨some (1 / 2), t⟩] = [⟨some (1 / 2), -100⟩] := by
  refine ⟨rfl, ?_, rfl, ?_⟩
  · induction els with
    | nil => rfl
    | cons e es ih =>
      simp only [handleParallax, List.map_cons, List.map_map] at ih ⊢
      exact congrArg _ ih
  · norm_num [handleParallax]

/-- C8: mobile-menu open and close are idempotent on the observable state
(`active` markers on menu and toggle, body scroll lock, per-item animation
styles), and open followed by close restores the closed state exactly. -/
theorem mobileMenu_idempotent (s : MenuState) :
    openMobileMenu (openMobileMenu s) = openMobileMenu s
    ∧ closeMobileMenu (closeMobileMenu s) = closeMobileMenu s
    ∧ closeMobileMenu (openMobileMenu s) = closeMobileMenu s := by
  refine ⟨?_, ?_, ?_⟩ <;>
    simp [openMobileMenu, closeMobileMenu, mapIdx_const, map_const_replicate,
      Function.comp_def, List.length_range]

/-- C9 counterexample: for a CTA button whose content at click time is
`"Demo"`, the content after the whole loading sequence is not `"Demo"`
(the restored `innerHTML` also contains the ripple span appended by the
ripple listener before the loading handler captured it). -/
theorem cta_restore_counterexample :
    ¬ ((ctaClickSequence ⟨"Demo", false, "", "", ""⟩).2.2.innerHTML
        = "Demo") := by
  decide

/-- C9 (amended): a single click on a loading-wired button produces the
three stages — spinner placeholder with the control disabled, then the
success label with the accent color, then re-enabled with the color
override cleared — and the final content equals the content the loading
handler captured during the click, namely the click-time content with the
ripple span appended by the ripple listener that runs first. -/
theorem cta_loading_sequence (b : Btn) :
    ctaClickSequence b =
      ({ innerHTML := processingHTML, disabled := true,
         background := b.background, position := "relative",
         overflow := "hidden" },
       { innerHTML := successHTML, disabled := true,
         background := "var(--color-accent)", position := "relative",
         overflow := "hidden" },
       { innerHTML := b.innerHTML ++ rippleHTML, disabled := false,
         background := "", position := "relative",
         overflow := "hidden" }) := rfl

/-- When the storage is available, `applyTheme` succeeds and leaves the
document attribute, the internal field and the stored value all equal to
the applied theme. -/
theorem applyTheme_ok (m : ThemeMgr) (th : String)
    (h : m.storage.available = true) :
    applyTheme m th = .ok
      { theme := th
        doc := { docAttr := some th
                 icon := m.doc.icon.map fun _ =>
                   if th = "dark" then "fas fa-sun" else "fas fa-moon" }
        storage := { available := true, value := some th } } := by
  simp [applyTheme, storageSet, h]

/-- C2 counterexample: with the underlying storage unavailable (its get
raises), constructing the Theme Controller propagates the exception
instead of falling back to the in-memory default. -/
theorem themeManager_construct_raises :
    themeManagerNew ⟨false, none⟩ ⟨none, none⟩ = .error () := rfl

/-- C2 (amended): when the underlying storage's get/set operations raise,
there is no guard in the code: the preference read in the constructor and
the preference write in `applyTheme` (hence in every toggle) both
propagate the exception — nothing degrades to a silent no-op. -/
theorem themeManager_unavailable_raises (st : BrowserStorage)
    (doc : ThemeDoc) (m : ThemeMgr)
    (h : st.available = false) (hm : m.storage.available = false) :
    themeManagerNew st doc = .error () ∧ toggle m = .error () := by
  constructor
  · simp only [themeManagerNew, storageGet, h, if_false, Bool.false_eq_true]
    rfl
  · simp [toggle, applyTheme, storageSet, hm]

/-- Witness for C2 (amended) at a concrete unavailable storage. -/
theorem themeManager_unavailable_raises_witness :
    (⟨false, none⟩ : BrowserStorage).available = false
    ∧ (themeManagerNew ⟨false, none⟩ ⟨none, none⟩ = .error ()
      ∧ toggle ⟨"dark", ⟨none, none⟩, ⟨false, none⟩⟩ = .error ()) :=
  ⟨rfl, themeManager_unavailable_raises ⟨false, none⟩ ⟨none, none⟩
    ⟨"dark", ⟨none, none⟩, ⟨false, none⟩⟩ rfl rfl⟩

/-- With available storage, `toggle` succeeds with the opposite theme
applied, persisted and recorded. -/
theorem toggle_ok (m : ThemeMgr) (hav : m.storage.available = true) :
    toggle m = .ok
      { theme := if m.theme = "dark" then "light" else "dark"
        doc := { docAttr := some (if m.theme = "dark" then "light" else "dark")
                 icon := m.doc.icon.map fun _ =>
                   if (if m.theme = "dark" then "light" else "dark") = "dark"
                   then "fas fa-sun" else "fas fa-moon" }
        storage := { available := true
                     value := some (if m.theme = "dark" then "light"
                       else "dark") } } := by
  rw [toggle]
  exact applyTheme_ok m _ hav

/-- C3: with available storage, the theme toggle is an involution — from
either theme in {dark, light} toggling twice returns to the original
theme — and after every single toggle the persisted value, the document
attribute and the internal theme field all coincide. -/
theorem theme_toggle_involution (m : ThemeMgr)
    (hth : m.theme = "dark" ∨ m.theme = "light")
    (hav : m.storage.available = true) :
    ∃ m', toggle m = .ok m'
      ∧ m'.storage.value = some m'.theme
      ∧ m'.doc.docAttr = some m'.theme
      ∧ ∃ m'', toggle m' = .ok m'' ∧ m''.theme = m.theme := by
  refine ⟨_, toggle_ok m hav, rfl, rfl, _, toggle_ok _ rfl, ?_⟩
  rcases hth with h | h <;> simp [h]

/-- Witness for C3 starting from the dark theme with available storage. -/
theorem theme_toggle_involution_witness :
    ((⟨"dark", ⟨none, none⟩, ⟨true, none⟩⟩ : ThemeMgr).theme = "dark"
      ∨ (⟨"dark", ⟨none, none⟩, ⟨true, none⟩⟩ : ThemeMgr).theme = "light")
    ∧ ∃ m', toggle ⟨"dark", ⟨none, none⟩, ⟨true, none⟩⟩ = .ok m'
      ∧ m'.storage.value = some m'.theme
      ∧ m'.doc.docAttr = some m'.theme
      ∧ ∃ m'', toggle m' = .ok m''
        ∧ m''.theme = (⟨"dark", ⟨none, none⟩, ⟨true, none⟩⟩ : ThemeMgr).theme :=
  ⟨Or.inl rfl,
    theme_toggle_involution ⟨"dark", ⟨none, none⟩, ⟨true, none⟩⟩
      (Or.inl rfl) rfl⟩

/-- Invariant carried through the reveal observer's lifetime: the observed
set has no duplicates, still-observed elements have never fired, and no
element has fired more than once. -/
def obsInv (s : ObserverState) : Prop :=
  s.observed.Nodup
  ∧ ∀ el, (el ∈ s.observed → s.fired.count el = 0) ∧ s.fired.count el ≤ 1

theorem observerStep_inv (s : ObserverState) (ev : ℕ × Bool)
    (h : obsInv s) : obsInv (observerStep s ev) := by
  obtain ⟨hnd, hcount⟩ := h
  unfold observerStep
  by_cases hc : (ev.2 && decide (ev.1 ∈ s.observed)) = true
  · have hc' := hc
    simp only [Bool.and_eq_true, decide_eq_true_eq] at hc'
    have hmem : ev.1 ∈ s.observed := hc'.2
    rw [if_pos hc]
    refine ⟨hnd.erase ev.1, fun el => ⟨?_, ?_⟩⟩
    · intro hel
      have hne := (hnd.mem_erase_iff.mp hel).1
      have hobs := (hnd.mem_erase_iff.mp hel).2
      rw [List.count_cons, (hcount el).1 hobs]
      simp [Ne.symm hne]
    · by_cases he : el = ev.1
      · subst he
        rw [List.count_cons, (hcount ev.1).1 hmem]
        simp
      · rw [List.count_cons]
        have hle := (hcount el).2
        simp only [beq_iff_eq, if_neg (Ne.symm he)]
        omega
  · rw [if_neg hc]; exact ⟨hnd, hcount⟩

theorem observerRun_inv (s : ObserverState) (events : List (ℕ × Bool))
    (h : obsInv s) : obsInv (events.foldl observerStep s) := by
  induction events generalizing s with
  | nil => exact h
  | cons ev evs ih => exact ih _ (observerStep_inv s ev h)

/-- C4: the reveal-animation trigger fires at most once per tagged
element over the whole page lifetime: starting from a duplicate-free set
of observed elements, after any sequence of visibility crossings each
element appears at most once in the fired log (the first qualifying
crossing unsubscribes it). -/
theorem reveal_fires_at_most_once (init : List ℕ)
    (events : List (ℕ × Bool)) (el : ℕ) (h : init.Nodup) :
    (observerRun init events).fired.count el ≤ 1 := by
  have hinv : obsInv { observed := init, fired := [] } :=
    ⟨h, fun e => ⟨fun _ => rfl, by simp⟩⟩
  exact ((observerRun_inv _ events hinv).2 el).2

/-- The `animation` callback's final write: for a frame sequence whose
earlier frames are all below the duration and whose last frame has
reached it, the last position written is the easing function at the final
frame's elapsed time. -/
theorem animationWrites_getLast (b c : ℚ) (fs : List ℚ) (e : ℚ)
    (hfs : ∀ x ∈ fs, x < scrollDuration) (he : scrollDuration ≤ e) :
    (animationWrites b c (fs ++ [e])).getLast? =
      some (easeInOutCubic e b c scrollDuration) := by
  induction fs with
  | nil =>
    rw [List.nil_append, animationWrites, if_neg (not_lt.mpr he)]
    rfl
  | cons x fs ih =>
    have hx : x < scrollDuration := hfs x (List.mem_cons_self x fs)
    have ih' := ih fun y hy => hfs y (List.mem_cons_of_mem x hy)
    rw [List.cons_append, animationWrites, if_pos hx]
    rcases hfe : fs ++ [e] with _ | ⟨y, ys⟩
    · exact absurd hfe (by simp)
    · rw [hfe] at ih'
      simp only [animationWrites] at ih' ⊢
      rw [List.getLast?_cons_cons]
      exact ih'

/-- Value of the easing function once the elapsed time has reached the
duration: the target `b + c` plus an overshoot term that vanishes only at
`e = duration` (or `c = 0`). -/
theorem easeInOutCubic_at_end (e b c : ℚ) (he : scrollDuration ≤ e) :
    easeInOutCubic e b c scrollDuration =
      (b + c) + c / 2 * (2 * e / scrollDuration - 2) ^ 3 := by
  rw [scrollDuration] at he
  have hcond : ¬ (e / ((1000 : ℚ) / 2) < 1) := by
    rw [not_lt, show (1000 : ℚ) / 2 = 500 from by norm_num,
      le_div_iff₀ (by norm_num : (0 : ℚ) < 500)]
    linarith
  simp only [easeInOutCubic, scrollDuration, if_neg hcond]
  ring

/-- C1 counterexample: target at `offsetTop = 100` with offset 80 (so the
computed target offset is 20), start position 0, frames at elapsed times
0 and 1100.  The first frame with elapsed ≥ 1000ms is the 1100ms one, and
the position written there is 20.08, not the target offset 20. -/
theorem smoothScroll_overshoot :
    ¬ ((smoothScrollTo (some ⟨100⟩) 80 0 [0, 1100]).getLast? = some 20) := by
  norm_num [smoothScrollTo, animationWrites, easeInOutCubic, scrollDuration]

/-- C1 (amended): for an existing target, the final scroll position —
written on the first animation frame whose elapsed time is ≥ the 1000ms
duration — equals the computed target offset plus the overshoot
`(distance/2)·(2·elapsed/1000 − 2)³`; it equals the target offset exactly
when that frame's elapsed time is exactly the duration.  When no element
matches the target identifier, no scroll write is performed at all. -/
theorem smoothScroll_final_write (t : ScrollTarget) (offset startPos : ℚ)
    (fs : List ℚ) (e : ℚ)
    (hfs : ∀ x ∈ fs, x < scrollDuration) (he : scrollDuration ≤ e) :
    (smoothScrollTo (some t) offset startPos (fs ++ [e])).getLast? =
      some ((t.offsetTop - offset) +
        ((t.offsetTop - offset) - startPos) / 2
          * (2 * e / scrollDuration - 2) ^ 3)
    ∧ (e = scrollDuration →
      (smoothScrollTo (some t) offset startPos (fs ++ [e])).getLast? =
        some (t.offsetTop - offset))
    ∧ smoothScrollTo none offset startPos (fs ++ [e]) = [] := by
  have hmain : (smoothScrollTo (some t) offset startPos (fs ++ [e])).getLast?
      = some ((t.offsetTop - offset) +
        ((t.offsetTop - offset) - startPos) / 2
          * (2 * e / scrollDuration - 2) ^ 3) := by
    show (animationWrites startPos ((t.offsetTop - offset) - startPos)
      (fs ++ [e])).getLast? = _
    rw [animationWrites_getLast _ _ fs e hfs he,
      easeInOutCubic_at_end e _ _ he]
    congr 1
    ring
  refine ⟨hmain, fun hdur => ?_, rfl⟩
  rw [hmain, hdur]
  norm_num [scrollDuration]

/-- Witness for C1 (amended) at a concrete run: frames at 0 and 1100ms,
target offset 20, start 0; the final write is 20 + 10·(0.2)³ = 20.08. -/
theorem smoothScroll_final_write_witness :
    (∀ x ∈ ([0] : List ℚ), x < scrollDuration)
    ∧ scrollDuration ≤ (1100 : ℚ)
    ∧ ((smoothScrollTo (some ⟨100⟩) 80 0 ([0] ++ [1100])).getLast? =
        some ((((100 : ℚ)) - 80) + ((((100 : ℚ)) - 80) - 0) / 2
          * (2 * 1100 / scrollDuration - 2) ^ 3)
      ∧ ((1100 : ℚ) = scrollDuration →
        (smoothScrollTo (some ⟨100⟩) 80 0 ([0] ++ [1100])).getLast? =
          some (((100 : ℚ)) - 80))
      ∧ smoothScrollTo none 80 0 ([0] ++ [1100]) = []) :=
  ⟨by norm_num [scrollDuration], by norm_num [scrollDuration],
    smoothScroll_final_write ⟨100⟩ 80 0 [0] 1100
      (by norm_num [scrollDuration]) (by norm_num [scrollDuration])⟩

/-- Witness for C4: two elements, one of them crossing the threshold three
times; it fires once. -/
theorem reveal_fires_at_most_once_witness :
    ([1, 2] : List ℕ).Nodup
    ∧ (observerRun [1, 2] [(1, true), (1, false), (1, true), (1, true)]).fired.count 1 ≤ 1 :=
  ⟨by decide, reveal_fires_at_most_once [1, 2]
    [(1, true), (1, false), (1, true), (1, true)] 1 (by decide)⟩

/-- C5: `updateActiveNavLink` follows the bounds comparison
`(scrollY + 100) ≥ top ∧ (scrollY + 100) < top + height` with the last
matching section in document order winning: the result clears every link
and marks the link of the last matching section; in particular, for
sections A(top=0,height=500) and B(top=500,height=500), scrollY=450 marks
B's link active and scrollY=350 marks A's link active. -/
theorem activeNavLink_selection (sections : List PageSection)
    (links : List NavLink) (y : ℚ) (m : PageSection)
    (h : (sections.filter (sectionMatches (y + 100))).getLast? = some m) :
    updateActiveNavLink sections links y =
      setActiveFirst m.sid (clearActive links)
    ∧ updateActiveNavLink [⟨"A", 0, 500⟩, ⟨"B", 500, 500⟩]
        [⟨"A", false⟩, ⟨"B", false⟩] 450 = [⟨"A", false⟩, ⟨"B", true⟩]
    ∧ updateActiveNavLink [⟨"A", 0, 500⟩, ⟨"B", 500, 500⟩]
        [⟨"A", false⟩, ⟨"B", false⟩] 350 = [⟨"A", true⟩, ⟨"B", false⟩] := by
  refine ⟨?_, ?_, ?_⟩
  · rw [updateActiveNavLink, foldl_navStep_eq, h]
  · norm_num [updateActiveNavLink, navStep, sectionMatches, clearActive,
      setActiveFirst]
    try decide
  · norm_num [updateActiveNavLink, navStep, sectionMatches, clearActive,
      setActiveFirst]
    try decide

/-- Witness for C5 at the concrete A/B layout: at scrollY=450 the filter's
last match is section B, and the update marks exactly B's link. -/
theorem activeNavLink_selection_witness :
    ([⟨"A", 0, 500⟩, ⟨"B", 500, 500⟩].filter
        (sectionMatches ((450 : ℚ) + 100))).getLast? = some ⟨"B", 500, 500⟩
    ∧ updateActiveNavLink [⟨"A", 0, 500⟩, ⟨"B", 500, 500⟩]
        [⟨"A", false⟩, ⟨"B", false⟩] 450 =
        setActiveFirst "B" (clearActive [⟨"A", false⟩, ⟨"B", false⟩]) :=
  ⟨by norm_num [sectionMatches], by
    have h := activeNavLink_selection [⟨"A", 0, 500⟩, ⟨"B", 500, 500⟩]
      [⟨"A", false⟩, ⟨"B", false⟩] 450 ⟨"B", 500, 500⟩
      (by norm_num [sectionMatches])
    exact h.1⟩

/-- C6: the at-most-one-active invariant is preserved by
`updateActiveNavLink`: starting from at most one active link, after the
update at any scroll position at most one link is active (each matching
section clears all links before marking at most one). -/
theorem activeNavLink_at_most_one (sections : List PageSection)
    (links : List NavLink) (y : ℚ) (h : countActive links ≤ 1) :
    countActive (updateActiveNavLink sections links y) ≤ 1 := by
  rw [updateActiveNavLink, foldl_navStep_eq]
  cases (sections.filter (sectionMatches (y + 100))).getLast? with
  | none => exact h
  | some m =>
    calc countActive (setActiveFirst m.sid (clearActive links))
        ≤ countActive (clearActive links) + 1 :=
          countActive_setActiveFirst_le m.sid (clearActive links)
      _ = 1 := by rw [countActive_clearActive]

/-- Witness for C6 at a concrete state: one active link stays at most one
after an update that switches the active section. -/
theorem activeNavLink_at_most_one_witness :
    countActive [⟨"A", true⟩, ⟨"B", false⟩] ≤ 1
    ∧ countActive (updateActiveNavLink [⟨"A", 0, 500⟩, ⟨"B", 500, 500⟩]
        [⟨"A", true⟩, ⟨"B", false⟩] 450) ≤ 1 :=
  ⟨by decide, activeNavLink_at_most_one [⟨"A", 0, 500⟩, ⟨"B", 500, 500⟩]
    [⟨"A", true⟩, ⟨"B", false⟩] 450 (by decide)⟩

/-- C10: when no section's bounds contain the lookahead-adjusted offset
`scrollY + 100`, `updateActiveNavLink` leaves every nav link exactly as it
was — active markers are only cleared in the step that marks a matching
section's link, so a previously active link stays active. -/
theorem activeNavLink_frame (sections : List PageSection)
    (links : List NavLink) (y : ℚ)
    (h : ∀ s ∈ sections, sectionMatches (y + 100) s = false) :
    updateActiveNavLink sections links y = links := by
  rw [updateActiveNavLink, foldl_navStep_eq]
  have hf : sections.filter (sectionMatches (y + 100)) = [] :=
    List.filter_eq_nil_iff.mpr (by simpa using h)
  rw [hf]
  rfl

/-- Witness for C10: scrolled past every section (scrollY=2000), the link
previously marked active stays marked. -/
theorem activeNavLink_frame_witness :
    (∀ s ∈ [(⟨"A", 0, 500⟩ : PageSection), ⟨"B", 500, 500⟩],
      sectionMatches ((2000 : ℚ) + 100) s = false)
    ∧ updateActiveNavLink [⟨"A", 0, 500⟩, ⟨"B", 500, 500⟩]
        [⟨"A", false⟩, ⟨"B", true⟩] 2000 = [⟨"A", false⟩, ⟨"B", true⟩] :=
  ⟨by norm_num [sectionMatches], activeNavLink_frame
    [⟨"A", 0, 500⟩, ⟨"B", 500, 500⟩] [⟨"A", false⟩, ⟨"B", true⟩] 2000
    (by norm_num [sectionMatches])⟩

end Aureon
